import Mathlib

/-!
Verification of the flood-dissemination event mesh (src/apps/main.cpp).

The program is a set of worker threads, each owning a blocking `EventQueue`;
a generator thread produces events with a shared `uint64_t` sequence counter;
each worker deduplicates incoming events by a packed 64-bit identity
`((uint64_t)generator_id << 32) | sequence_number` and re-sends novel events
to the other queues after a fixed delay, skipping the send when the global
stop flag has been set.

The definitions below are a shallow embedding of that code: the queue is its
list of pending events plus the `stop_requested_` flag; blocking removal is
modelled by an Option result that is `none` exactly when the condition
variable predicate of `EventQueue::dequeue` does not hold (the caller stays
blocked); machine integers are Nat/Int with explicit reduction mod 2^64 where
the C++ arithmetic wraps.
-/

namespace EventMesh

/-- Event struct from main.cpp: a payload string, an `int` generator id and a
`uint64_t` sequence number. -/
structure Event where
  data : String
  generator_id : Int
  sequence_number : Nat
  deriving DecidableEq, Repr

/-- The value-initialized Event `{}` returned by `EventQueue::dequeue` when the
queue is empty and a stop was requested: empty string, zero id, zero sequence
number. -/
def emptyEvent : Event :=
  { data := "", generator_id := 0, sequence_number := 0 }

/-- EventQueue state: the pending events in FIFO order (front = head) and the
`stop_requested_` atomic flag. -/
structure EventQueue where
  queue : List Event
  stop_requested : Bool
  deriving DecidableEq, Repr

/-- EventQueue::enqueue (main.cpp lines 32-36): unconditionally pushes the
event at the tail (and notifies one waiter). The code never consults
`stop_requested_` here. -/
def EventQueue.enqueue (q : EventQueue) (event : Event) : EventQueue :=
  { q with queue := q.queue ++ [event] }

/-- The condition-variable wait predicate of `EventQueue::dequeue`
(main.cpp line 40): the call can proceed when the queue is non-empty or a
stop has been requested. -/
def EventQueue.waitPred (q : EventQueue) : Bool :=
  !q.queue.isEmpty || q.stop_requested

/-- EventQueue::dequeue (main.cpp lines 38-47). The result is `none` when the
wait predicate is false, meaning the caller remains blocked; otherwise the
call returns: the value-initialized empty Event if the queue is empty
(stop requested), else the head of the queue, which is removed. -/
def EventQueue.dequeue (q : EventQueue) : Option (Event × EventQueue) :=
  if q.waitPred then
    match q.queue with
    | [] => some (emptyEvent, q)
    | event :: rest => some (event, { q with queue := rest })
  else none

/-- EventQueue::request_stop (main.cpp lines 54-57): stores true into
`stop_requested_` (the notify_all side effect is part of the scheduling
model further below, not of the queue state). -/
def EventQueue.request_stop (q : EventQueue) : EventQueue :=
  { q with stop_requested := true }

/-- A sequence of enqueue calls issued in order onto one queue. -/
def EventQueue.enqueueAll (q : EventQueue) (es : List Event) : EventQueue :=
  es.foldl EventQueue.enqueue q

/-- n successive dequeue calls; `none` as soon as one of them would block. -/
def EventQueue.dequeueN : EventQueue → Nat → Option (List Event × EventQueue)
  | q, 0 => some ([], q)
  | q, n + 1 =>
    match q.dequeue with
    | none => none
    | some (event, q1) =>
      match q1.dequeueN n with
      | none => none
      | some (es, q2) => some (event :: es, q2)

/-- C++ conversion of the `int` generator id to `uint64_t`: reduction of the
signed value modulo 2^64 (negative values wrap to large ones). -/
def uint64OfInt (g : Int) : Nat :=
  (g % (2 : Int) ^ 64).toNat

/-- The packed dedup identity computed by `event_processor` (main.cpp
line 114): `((uint64_t)event.generator_id << 32) | event.sequence_number`,
all arithmetic in 64-bit unsigned. -/
def event_id (event : Event) : Nat :=
  ((uint64OfInt event.generator_id * 2 ^ 32) % 2 ^ 64) |||
    (event.sequence_number % 2 ^ 64)

/-- The is_duplicate check of `event_processor` (main.cpp lines 98-101):
membership of the packed id in the node's `received_events` set. -/
def is_duplicate (received_events : List Nat) (eid : Nat) : Bool :=
  received_events.contains eid

/-- The mark_received action of `event_processor` (main.cpp lines 103-106):
insertion of the packed id into the node's `received_events` set. -/
def mark_received (received_events : List Nat) (eid : Nat) : List Nat :=
  eid :: received_events

/-- Observable state of one node's processing loop: its dedup set, the ids for
which the "received event" observation was emitted (in order), and the ids for
which a round of delayed forwards was scheduled (in order). -/
structure ProcState where
  received_events : List Nat
  observations : List Nat
  forwards : List Nat
  deriving DecidableEq, Repr

/-- A node's loop state before its first iteration. -/
def initState : ProcState :=
  { received_events := [], observations := [], forwards := [] }

/-- Body of one non-exiting iteration of `event_processor` (main.cpp
lines 114-133): compute the packed id; if it is a duplicate, only log and
change nothing; otherwise emit the "received" observation, mark the id
received and schedule the delayed forward round. -/
def processEvent (s : ProcState) (event : Event) : ProcState :=
  let eid := event_id event
  if is_duplicate s.received_events eid then s
  else
    { received_events := mark_received s.received_events eid,
      observations := s.observations ++ [eid],
      forwards := s.forwards ++ [eid] }

/-- The processing loop of `event_processor` (main.cpp lines 108-134) run over
a trace of iterations. Each entry carries the two values read from the global
`stop_flag` during that iteration (at the `while` head, line 108, and after
the dequeue, line 110) together with the event the dequeue returned. The loop
exits when the first flag read is true, when the second flag read is true, or
when the dequeued event has an empty payload. -/
def processLoop (s : ProcState) : List (Bool × Bool × Event) → ProcState
  | [] => s
  | (stop1, stop2, event) :: rest =>
    if stop1 then s
    else if stop2 || event.data == "" then s
    else processLoop (processEvent s event) rest

/-- Body of the detached delayed-forward thread spawned by `event_processor`
(main.cpp lines 123-128): after the sleep it reads the global stop flag and
enqueues the event into the target queue only when the flag is false. -/
def resend_task (stop_flag : Bool) (event : Event) (other_queue : EventQueue) :
    EventQueue :=
  if !stop_flag then other_queue.enqueue event else other_queue

/-- One production step of `event_generator` (main.cpp lines 82-86) given the
value v loaded from the shared `uint64_t` sequence counter: the payload embeds
the loaded value, and `fetch_add(1)` returns that same value into the
`sequence_number` field (single producer on the counter). -/
def genEvent (generator_id : Int) (v : Nat) : Event :=
  { data := "Event from generator " ++ toString generator_id ++ " seq " ++
      toString v,
    generator_id := generator_id,
    sequence_number := v }

/-- The i-th event (0-based) produced by `event_generator`: the shared counter
starts at 0 (main.cpp line 142) and is a `uint64_t`, so after i increments it
holds i mod 2^64. -/
def nthGeneratedEvent (generator_id : Int) (i : Nat) : Event :=
  genEvent generator_id (i % 2 ^ 64)

/-!
Scheduling model for the shutdown protocol.

The processor blocks inside `EventQueue::dequeue` via
`cv_.wait(lock, pred)`, which repeatedly evaluates the predicate under the
queue mutex and, when it is false, atomically releases the mutex and joins
the condition variable's wait set. `EventQueue::request_stop` (main.cpp
lines 54-57) stores `stop_requested_` and calls `notify_all` WITHOUT taking
the queue mutex, so the store and the notification can land in the window
after the waiter has evaluated the predicate (still false) and before it has
entered the wait set; the C++ standard only obliges `notify_all` to unblock
threads that are blocked at that instant. The two thread programs below
capture exactly this: one processor performing a blocking dequeue on an
empty queue, and the main thread performing the shutdown sequence of
main.cpp lines 179-189 (store the stop flag, `request_stop`, join). Spurious
wakeups are permitted but not guaranteed by C++; the model describes the
legal executions in which none occurs.
-/

/-- Control point of the processor thread inside its blocking dequeue on an
empty queue. -/
inductive PState
  /-- Holds the queue mutex and is about to evaluate the cv wait predicate. -/
  | atCheck
  /-- Evaluated the predicate to false; about to release the mutex and enter
  the condition variable's wait set. -/
  | atWaitEntry
  /-- In the condition variable's wait set. -/
  | waiting
  /-- The dequeue returned end-of-stream and the processing loop exited. -/
  | stopped
  deriving DecidableEq, Repr

/-- Control point of the main thread inside the shutdown sequence. -/
inductive MState
  /-- Before executing request_stop on the processor's queue. -/
  | start
  /-- Stored true into the queue's stop_requested flag (and the global
  stop flag); notify_all not yet executed. -/
  | stored
  /-- Executed notify_all; now blocked in join until the processor stops. -/
  | notified
  deriving DecidableEq, Repr

/-- Joint configuration of the two threads and the queue's stop flag. The
queue itself stays empty in this scenario (no generator event was produced
before the shutdown, which is a reachable situation since the generator
checks the stop flag after its first sleep and may exit without producing). -/
structure ShutdownConfig where
  p : PState
  m : MState
  stopReq : Bool
  deriving DecidableEq, Repr

/-- Interleaving semantics of the scenario. The processor steps mirror
`cv_.wait(lock, pred)` with an empty queue: the predicate is `stopReq`;
a true predicate with an empty queue makes dequeue return the empty Event,
upon which the loop at main.cpp line 110 breaks. The main-thread steps mirror
request_stop: the store and the notify_all are two separate steps because no
mutex orders them against the waiter; notify_all moves exactly the threads
that are in the wait set at that instant back to the predicate check. -/
inductive ShutdownStep : ShutdownConfig → ShutdownConfig → Prop
  /-- Predicate check with stopReq true: dequeue returns, the loop exits. -/
  | checkTrue (m : MState) :
      ShutdownStep ⟨PState.atCheck, m, true⟩ ⟨PState.stopped, m, true⟩
  /-- Predicate check with stopReq false: the waiter will block. -/
  | checkFalse (m : MState) :
      ShutdownStep ⟨PState.atCheck, m, false⟩ ⟨PState.atWaitEntry, m, false⟩
  /-- Release the mutex and enter the condition variable's wait set. -/
  | enterWait (m : MState) (srq : Bool) :
      ShutdownStep ⟨PState.atWaitEntry, m, srq⟩ ⟨PState.waiting, m, srq⟩
  /-- Main thread stores true into the stop flag (no mutex held). -/
  | storeStop (p : PState) (srq : Bool) :
      ShutdownStep ⟨p, MState.start, srq⟩ ⟨p, MState.stored, true⟩
  /-- notify_all finds the processor in the wait set and unblocks it. -/
  | notifyWake (srq : Bool) :
      ShutdownStep ⟨PState.waiting, MState.stored, srq⟩
        ⟨PState.atCheck, MState.notified, srq⟩
  /-- notify_all at an instant when the processor is not in the wait set:
  nothing is unblocked. -/
  | notifyMiss (p : PState) (srq : Bool) (h : p ≠ PState.waiting) :
      ShutdownStep ⟨p, MState.stored, srq⟩ ⟨p, MState.notified, srq⟩

/-- Initial configuration: processor entering dequeue on the empty queue,
main thread about to run the shutdown sequence, stop not yet requested. -/
def initConfig : ShutdownConfig :=
  ⟨PState.atCheck, MState.start, false⟩

/-- The configuration reached by the lost-wakeup interleaving: the processor
is parked in the wait set, the main thread has already issued its only
notify_all, the stop flag is set. -/
def stuckConfig : ShutdownConfig :=
  ⟨PState.waiting, MState.notified, true⟩

/-! Helper lemmas about the queue operations. -/

/-- Folding a list of enqueue calls appends the list to the pending queue and
leaves the stop flag unchanged. -/
theorem EventQueue.enqueueAll_eq :
    ∀ (es : List Event) (l : List Event) (srq : Bool),
      EventQueue.enqueueAll ⟨l, srq⟩ es = ⟨l ++ es, srq⟩
  | [], l, srq => by simp [EventQueue.enqueueAll]
  | e :: es, l, srq => by
    have h := EventQueue.enqueueAll_eq es (l ++ [e]) srq
    simpa [EventQueue.enqueueAll, EventQueue.enqueue] using h

/-- Dequeuing exactly as many times as there are pending events returns the
pending events in order, none of the calls blocking, for any state of the
stop flag. -/
theorem EventQueue.dequeueN_exact :
    ∀ (l : List Event) (srq : Bool),
      EventQueue.dequeueN ⟨l, srq⟩ l.length = some (l, ⟨[], srq⟩)
  | [], _ => rfl
  | e :: rest, srq => by
    have h := EventQueue.dequeueN_exact rest srq
    simp [EventQueue.dequeueN, EventQueue.dequeue, EventQueue.waitPred, h]

/-! Helper lemmas about the node processing loop. -/

/-- Invariant of a node's loop state: the emitted observations are pairwise
distinct ids, each observed id has been marked received, and the forward
rounds are exactly the observations. -/
def ProcInv (s : ProcState) : Prop :=
  s.observations.Nodup ∧
    (∀ x ∈ s.observations, x ∈ s.received_events) ∧
    s.forwards = s.observations

/-- One loop body preserves the invariant. -/
theorem processEvent_inv (s : ProcState) (event : Event) (h : ProcInv s) :
    ProcInv (processEvent s event) := by
  obtain ⟨hnd, hsub, hfwd⟩ := h
  cases hd : is_duplicate s.received_events (event_id event) with
  | true => simpa [processEvent, hd] using ⟨hnd, hsub, hfwd⟩
  | false =>
    have hd' : event_id event ∉ s.received_events := by
      simpa [is_duplicate, List.contains] using hd
    have hobs : event_id event ∉ s.observations := fun hmem => hd' (hsub _ hmem)
    refine ⟨?_, ?_, ?_⟩ <;>
      simp only [processEvent, hd, Bool.false_eq_true, if_false, mark_received]
    · exact (List.nodup_append).mpr
        ⟨hnd, List.nodup_singleton _, by simpa [List.disjoint_singleton] using hobs⟩
    · intro x hx
      rcases List.mem_append.mp hx with hx | hx
      · exact List.mem_cons_of_mem _ (hsub _ hx)
      · simp only [List.mem_singleton] at hx
        simp [hx]
    · rw [hfwd]

/-- The whole loop preserves the invariant. -/
theorem processLoop_inv (trace : List (Bool × Bool × Event)) (s : ProcState)
    (h : ProcInv s) : ProcInv (processLoop s trace) := by
  induction trace generalizing s with
  | nil => simpa [processLoop] using h
  | cons step rest ih =>
    obtain ⟨stop1, stop2, event⟩ := step
    simp only [processLoop]
    split
    · exact h
    · split
      · exact h
      · exact ih _ (processEvent_inv _ _ h)

/-- The initial loop state satisfies the invariant. -/
theorem initState_inv : ProcInv initState :=
  ⟨List.nodup_nil, fun x hx => by simp [initState] at hx, rfl⟩

/-! Claim theorems. -/

/-- A concrete non-empty event used in counterexamples. -/
def c1Event : Event := { data := "x", generator_id := 1, sequence_number := 0 }

/-- C1 fails on the code: `EventQueue::enqueue` never consults
`stop_requested_`, so after `request_stop` an enqueue still appends the event
(the queue contents change from `[]` to one element) and the very next dequeue
returns that event. -/
theorem c1_counterexample :
    (((⟨[], false⟩ : EventQueue).request_stop).enqueue c1Event).queue ≠ [] ∧
    (((⟨[], false⟩ : EventQueue).request_stop).enqueue c1Event).dequeue =
      some (c1Event, ⟨[], true⟩) := by
  exact ⟨by decide, rfl⟩

/-- C1 amended: after `request_stop`, `enqueue` is not a no-op — it appends
the event exactly as before the stop, and a run of dequeue calls draining the
queue does return the event (as the last element). Only the blocking
behaviour of dequeue is changed by the stop flag, not enqueue. -/
theorem c1_amended (q : EventQueue) (event : Event) :
    ((q.request_stop).enqueue event).queue = q.queue ++ [event] ∧
    ((q.request_stop).enqueue event).dequeueN (q.queue.length + 1) =
      some (q.queue ++ [event], ⟨[], true⟩) := by
  constructor
  · rfl
  · have h := EventQueue.dequeueN_exact (q.queue ++ [event]) true
    have hl : (q.queue ++ [event]).length = q.queue.length + 1 := by simp
    rw [← hl]
    exact h

/-- C4: at-most-once processing. Over any trace of loop iterations, a node
emits the "received event" observation for a given identity's packed id at
most once, and the scheduled forward rounds coincide exactly with the
"received" observations, so a later delivery of the same identity triggers
no forwarding. -/
theorem at_most_once_processing (trace : List (Bool × Bool × Event))
    (event : Event) :
    (processLoop initState trace).observations.count (event_id event) ≤ 1 ∧
    (processLoop initState trace).forwards =
      (processLoop initState trace).observations := by
  obtain ⟨hnd, _, hfwd⟩ := processLoop_inv trace initState initState_inv
  exact ⟨List.nodup_iff_count_le_one.mp hnd _, hfwd⟩

/-- C5: a node schedules the forward round for a given identity's packed id
at most once over the whole run of its processing loop. -/
theorem forward_at_most_once (trace : List (Bool × Bool × Event))
    (event : Event) :
    (processLoop initState trace).forwards.count (event_id event) ≤ 1 := by
  obtain ⟨hnd, _, hfwd⟩ := processLoop_inv trace initState initState_inv
  rw [hfwd]
  exact List.nodup_iff_count_le_one.mp hnd _

/-- C6: FIFO per channel. A sequence of enqueue calls onto a fresh queue with
no stop requested, followed by the same number of dequeue calls with no
interleaving, returns the events in exactly the enqueue order (and none of
the dequeue calls blocks). -/
theorem fifo_per_channel (es : List Event) :
    (EventQueue.enqueueAll ⟨[], false⟩ es).dequeueN es.length =
      some (es, ⟨[], false⟩) := by
  rw [EventQueue.enqueueAll_eq es [] false]
  simpa using EventQueue.dequeueN_exact es false

/-- C7: with a stop requested, the condition-variable predicate of dequeue is
true (the call proceeds without blocking); a non-empty queue is drained
first — dequeue removes and returns the head — and only an empty queue makes
dequeue return the end-of-stream marker (the value-initialized Event). -/
theorem stopped_dequeue_drains_first (q : EventQueue)
    (h : q.stop_requested = true) :
    q.waitPred = true ∧
    (∀ event rest, q.queue = event :: rest →
        q.dequeue = some (event, ⟨rest, q.stop_requested⟩)) ∧
    (q.queue = [] → q.dequeue = some (emptyEvent, q)) := by
  refine ⟨by simp [EventQueue.waitPred, h], ?_, ?_⟩
  · intro event rest hq
    simp [EventQueue.dequeue, EventQueue.waitPred, h, hq]
  · intro hq
    simp [EventQueue.dequeue, EventQueue.waitPred, h, hq]

/-- Witness for C7 at the concrete stopped queue holding one event. -/
theorem stopped_dequeue_drains_first_witness :
    (⟨[c1Event], true⟩ : EventQueue).stop_requested = true ∧
    ((⟨[c1Event], true⟩ : EventQueue).waitPred = true ∧
     (∀ event rest, (⟨[c1Event], true⟩ : EventQueue).queue = event :: rest →
        (⟨[c1Event], true⟩ : EventQueue).dequeue =
          some (event, ⟨rest, (⟨[c1Event], true⟩ : EventQueue).stop_requested⟩)) ∧
     ((⟨[c1Event], true⟩ : EventQueue).queue = [] →
        (⟨[c1Event], true⟩ : EventQueue).dequeue =
          some (emptyEvent, ⟨[c1Event], true⟩))) :=
  ⟨rfl, stopped_dequeue_drains_first ⟨[c1Event], true⟩ rfl⟩

/-- C8: the delayed forward task reads the global stop flag after its sleep:
with the flag set it leaves the target queue untouched (the forward is
dropped), with the flag clear it appends the event to the target queue. -/
theorem delayed_forward_checks_stop (event : Event) (other_queue : EventQueue) :
    resend_task true event other_queue = other_queue ∧
    resend_task false event other_queue = other_queue.enqueue event ∧
    (resend_task false event other_queue).queue =
      other_queue.queue ++ [event] := by
  refine ⟨rfl, rfl, rfl⟩

/-- A legitimate event with an empty payload but non-default identity
fields. -/
def emptyPayloadEvent : Event :=
  { data := "", generator_id := 5, sequence_number := 7 }

/-- C10: a legitimate event whose payload is the empty string makes the
processing loop exit even though no stop was requested — the dequeue on a
non-stopped queue hands it over normally, and the loop's
`stop_flag or data.empty` test then breaks out, processing nothing; moreover
the end-of-stream marker returned by dequeue is just the value-initialized
Event, which coincides with a real event holding those very field values. -/
theorem empty_payload_treated_as_end_of_stream :
    emptyPayloadEvent.data = "" ∧
    emptyPayloadEvent ≠ emptyEvent ∧
    ((⟨[], false⟩ : EventQueue).enqueue emptyPayloadEvent).dequeue =
      some (emptyPayloadEvent, ⟨[], false⟩) ∧
    (∀ (s : ProcState) (rest : List (Bool × Bool × Event)),
        processLoop s ((false, false, emptyPayloadEvent) :: rest) = s) ∧
    ({ data := "", generator_id := 0, sequence_number := 0 } : Event) =
      emptyEvent := by
  refine ⟨rfl, by decide, rfl, ?_, rfl⟩
  intro s rest
  simp [processLoop, emptyPayloadEvent]

/-- C2 fails on the code: `request_stop` stores the flag and notifies without
holding the queue mutex, so the notification can race into the window between
the waiter's predicate check and its entry into the condition variable's wait
set. The interleaving below reaches a configuration in which the processor is
parked in the wait set, the stop flag is set, the single notify_all has
already fired — and no step at all is enabled any more: the processor never
leaves the wait set and the main thread's join never returns. -/
theorem shutdown_lost_wakeup :
    Relation.ReflTransGen ShutdownStep initConfig stuckConfig ∧
    (∀ c, ¬ ShutdownStep stuckConfig c) ∧
    stuckConfig.p ≠ PState.stopped := by
  refine ⟨?_, ?_, by decide⟩
  · have s1 : ShutdownStep initConfig
        ⟨PState.atWaitEntry, MState.start, false⟩ :=
      ShutdownStep.checkFalse MState.start
    have s2 : ShutdownStep ⟨PState.atWaitEntry, MState.start, false⟩
        ⟨PState.atWaitEntry, MState.stored, true⟩ :=
      ShutdownStep.storeStop PState.atWaitEntry false
    have s3 : ShutdownStep ⟨PState.atWaitEntry, MState.stored, true⟩
        ⟨PState.atWaitEntry, MState.notified, true⟩ :=
      ShutdownStep.notifyMiss PState.atWaitEntry true (by decide)
    have s4 : ShutdownStep ⟨PState.atWaitEntry, MState.notified, true⟩
        stuckConfig :=
      ShutdownStep.enterWait MState.notified true
    exact Relation.ReflTransGen.head s1 (Relation.ReflTransGen.head s2
      (Relation.ReflTransGen.head s3 (Relation.ReflTransGen.single s4)))
  · intro c h
    rw [show stuckConfig = ⟨PState.waiting, MState.notified, true⟩ from rfl] at h
    cases h

/-! Arithmetic of the packed 64-bit identity. -/

/-- When the generator id is a non-negative value below 2^32 and the sequence
number is below 2^32, the packed id is the exact base-2^32 positional code of
the identity pair: no wrap in the shift and no overlap in the bitwise or. -/
theorem event_id_eq (event : Event) (hg0 : 0 ≤ event.generator_id)
    (hg : event.generator_id < 2 ^ 32) (hs : event.sequence_number < 2 ^ 32) :
    event_id event = 2 ^ 32 * event.generator_id.toNat + event.sequence_number := by
  unfold event_id uint64OfInt
  have h64 : event.generator_id % (2 : Int) ^ 64 = event.generator_id :=
    Int.emod_eq_of_lt hg0 (lt_trans hg (by norm_num))
  rw [h64]
  have hgn : event.generator_id.toNat < 2 ^ 32 := by
    have := (Int.toNat_lt hg0).mpr (by exact_mod_cast hg)
    exact_mod_cast this
  have hmul : event.generator_id.toNat * 2 ^ 32 < 2 ^ 64 := by
    have h1 : event.generator_id.toNat * 2 ^ 32 < 2 ^ 32 * 2 ^ 32 :=
      (Nat.mul_lt_mul_right (by norm_num)).mpr hgn
    have h2 : (2 : Nat) ^ 32 * 2 ^ 32 = 2 ^ 64 := by norm_num
    rw [h2] at h1
    exact h1
  rw [Nat.mod_eq_of_lt hmul, Nat.mod_eq_of_lt (lt_trans hs (by norm_num)),
    Nat.mul_comm]
  exact (Nat.mul_add_lt_is_or hs event.generator_id.toNat).symm

/-- Two events whose identities collide under the packing: the 33rd bit of the
sequence number lands on bit 0 of the shifted generator id, so identity
(0, 2^32) and identity (1, 0) produce the same packed id. -/
def collideA : Event :=
  { data := "payload-a", generator_id := 0, sequence_number := 2 ^ 32 }

/-- The second event of the colliding pair. -/
def collideB : Event :=
  { data := "payload-b", generator_id := 1, sequence_number := 0 }

/-- C3 fails on the code for the second half of the claim: the identities
(0, 2^32) and (1, 0) are distinct, yet their packed ids coincide
(both equal 2^32, because the `uint64_t` sequence number is wider than the
32 bits left for it by the shift), so after processing the first event the
dedup check discards the second as a duplicate. -/
theorem dedup_identity_counterexample :
    (collideA.generator_id, collideA.sequence_number) ≠
      (collideB.generator_id, collideB.sequence_number) ∧
    event_id collideA = event_id collideB ∧
    is_duplicate (mark_received [] (event_id collideA)) (event_id collideB) =
      true := by
  refine ⟨by decide, by decide, by decide⟩

/-- C3 amended: two events with equal (originId, sequenceNumber) are treated
as the same event regardless of their payloads — with no restriction on the
identity's range, since equal identities always produce equal packed ids.
Two events with distinct identities are treated as distinct events provided
both identities fit in 32 bits (non-negative generator id below 2^32,
sequence number below 2^32); outside that range the packing collides (see
the counterexample). -/
theorem dedup_by_identity (e1 e2 : Event) :
    ((e1.generator_id, e1.sequence_number) =
        (e2.generator_id, e2.sequence_number) →
      is_duplicate (mark_received [] (event_id e1)) (event_id e2) = true) ∧
    ((0 ≤ e1.generator_id ∧ e1.generator_id < 2 ^ 32 ∧
        0 ≤ e2.generator_id ∧ e2.generator_id < 2 ^ 32 ∧
        e1.sequence_number < 2 ^ 32 ∧ e2.sequence_number < 2 ^ 32) →
      (e1.generator_id, e1.sequence_number) ≠
        (e2.generator_id, e2.sequence_number) →
      is_duplicate (mark_received [] (event_id e1)) (event_id e2) = false) := by
  constructor
  · intro h
    have hg : e1.generator_id = e2.generator_id := congrArg Prod.fst h
    have hs : e1.sequence_number = e2.sequence_number := congrArg Prod.snd h
    have : event_id e1 = event_id e2 := by
      unfold event_id uint64OfInt
      rw [hg, hs]
    simp [is_duplicate, mark_received, this, List.contains]
  · intro hb h
    obtain ⟨h1a, h1b, h2a, h2b, h1s, h2s⟩ := hb
    have id1 := event_id_eq e1 h1a h1b h1s
    have id2 := event_id_eq e2 h2a h2b h2s
    have hne : event_id e2 ≠ event_id e1 := by
      rw [id1, id2]
      intro heq
      apply h
      have e32 : (2 : Nat) ^ 32 = 4294967296 := by norm_num
      have e32i : (2 : Int) ^ 32 = 4294967296 := by norm_num
      rw [e32] at heq h1s h2s
      rw [e32i] at h1b h2b
      have hg : e1.generator_id = e2.generator_id := by omega
      have hs : e1.sequence_number = e2.sequence_number := by omega
      rw [hg, hs]
    simp [is_duplicate, mark_received, List.contains, hne]

/-- Witness for C3 at concrete inputs: the equal identity (2, 2^32 + 7) — a
sequence number beyond 32 bits — with differing payloads is flagged as a
duplicate, and the distinct in-range identities (2, 5) and (3, 5) are not,
the range hypotheses of the second half discharged concretely. -/
theorem dedup_by_identity_witness :
    is_duplicate
      (mark_received []
        (event_id { data := "p", generator_id := 2, sequence_number := 2 ^ 32 + 7 }))
      (event_id { data := "q", generator_id := 2, sequence_number := 2 ^ 32 + 7 }) =
      true ∧
    (((0 : Int) ≤ 2 ∧ (2 : Int) < 2 ^ 32 ∧ (0 : Int) ≤ 3 ∧ (3 : Int) < 2 ^ 32 ∧
        (5 : Nat) < 2 ^ 32 ∧ (5 : Nat) < 2 ^ 32) ∧
      is_duplicate
        (mark_received [] (event_id { data := "a", generator_id := 2, sequence_number := 5 }))
        (event_id { data := "b", generator_id := 3, sequence_number := 5 }) = false) :=
  ⟨(dedup_by_identity
      { data := "p", generator_id := 2, sequence_number := 2 ^ 32 + 7 }
      { data := "q", generator_id := 2, sequence_number := 2 ^ 32 + 7 }).1 rfl,
    by norm_num,
    (dedup_by_identity
        { data := "a", generator_id := 2, sequence_number := 5 }
        { data := "b", generator_id := 3, sequence_number := 5 }).2
      (by norm_num) (by decide)⟩

/-! The generator's sequence numbers. -/

/-- C9 fails on the code in full generality: the shared sequence counter is a
`uint64_t`, so in production order the sequence numbers wrap — the event at
production index 2^64 carries sequence number 0, smaller than the 2^64 - 1
carried by its predecessor. -/
theorem generator_sequence_counterexample :
    (nthGeneratedEvent 0 (2 ^ 64 - 1)).sequence_number = 2 ^ 64 - 1 ∧
    (nthGeneratedEvent 0 (2 ^ 64)).sequence_number = 0 ∧
    ¬((nthGeneratedEvent 0 (2 ^ 64 - 1)).sequence_number <
        (nthGeneratedEvent 0 (2 ^ 64)).sequence_number) := by
  refine ⟨?_, ?_, ?_⟩
  · simp [nthGeneratedEvent, genEvent]
  · simp [nthGeneratedEvent, genEvent]
  · simp [nthGeneratedEvent, genEvent]

/-- C9 amended: as long as the per-origin counter has not wrapped (fewer than
2^64 events produced), the sequence numbers are strictly increasing in
production order; and every produced event carries the origin id it was
generated for and a payload embedding exactly its own sequence number. -/
theorem generator_sequence_strict_mono (generator_id : Int) (i j : Nat)
    (hij : i < j) (hj : j < 2 ^ 64) :
    (nthGeneratedEvent generator_id i).sequence_number <
      (nthGeneratedEvent generator_id j).sequence_number ∧
    ∀ k : Nat,
      (nthGeneratedEvent generator_id k).generator_id = generator_id ∧
      (nthGeneratedEvent generator_id k).data =
        "Event from generator " ++ toString generator_id ++ " seq " ++
          toString (nthGeneratedEvent generator_id k).sequence_number := by
  constructor
  · show i % 2 ^ 64 < j % 2 ^ 64
    rw [Nat.mod_eq_of_lt (lt_trans hij hj), Nat.mod_eq_of_lt hj]
    exact hij
  · intro k
    exact ⟨rfl, rfl⟩

/-- Witness for C9 at production indices 0 and 1 of generator 0. -/
theorem generator_sequence_strict_mono_witness :
    ((0 : Nat) < 1 ∧ (1 : Nat) < 2 ^ 64) ∧
    ((nthGeneratedEvent 0 0).sequence_number <
        (nthGeneratedEvent 0 1).sequence_number ∧
      ∀ k : Nat,
        (nthGeneratedEvent 0 k).generator_id = 0 ∧
        (nthGeneratedEvent 0 k).data =
          "Event from generator " ++ toString (0 : Int) ++ " seq " ++
            toString (nthGeneratedEvent 0 k).sequence_number) :=
  ⟨by norm_num, generator_sequence_strict_mono 0 0 1 (by norm_num) (by norm_num)⟩

end EventMesh
